import Mathlib

set_option autoImplicit false

/-!
Shallow embedding of the broadcast-time and preferences handling of the
luna-sysservice preferences daemon (webosce/luna-sysservice), covering
`Src/BroadcastTimeHandler.cpp`, the inline members of
`Inc/TimePrefsHandler.h`, and the `cbSetPreferences` loop of
`Src/PrefsFactory.cpp`.

Times (`time_t`) are embedded as `Int` (seconds since the epoch).  The libc
civil-time API (`localtime_r`/`timegm`/`gmtime_r`/`timelocal`) is embedded
through a `Zone` record carrying two offset functions; see `Zone` below.
-/

namespace LunaSysService

/-!
## Time zones and the toLocal / toUtc helpers

`Src/BroadcastTimeHandler.cpp` lines 140-164 define two conversion helpers
built on the libc timezone API:

* `toLocal(utc)` runs `localtime_r` (break UTC epoch into civil fields of the
  configured zone) and re-encodes the fields with `timegm` (as if they were
  UTC).  Net effect: `utc + offsetOfZoneAt(utc)`.
* `toUtc(local)` runs `gmtime_r` (break the local-encoded epoch into civil
  fields) and encodes them with `timelocal` after setting `tm_isdst = -1`
  (mktime looks up the TZ rules).  Net effect: `local - offsetMktimeChoosesFor(local)`.

A `Zone` packages the two offset functions the libc calls consult:
`utcToOffset t` is the zone's UTC offset at the UTC instant `t`;
`localToOffset l` is the offset `mktime` (with `tm_isdst = -1`) selects for
the civil time whose zone-less encoding is `l`.  For a zone without DST both
are the same constant; for a zone with DST they differ around transitions and
`localToOffset` embodies mktime's disambiguation of ambiguous local times.
The libc failure value `(time_t)-1` is only produced for unrepresentable
civil times; the embedding keeps the conversions total and the callers'
`== -1` checks are retained verbatim.
-/

structure Zone where
  utcToOffset : Int → Int
  localToOffset : Int → Int

/-- Embedding of the `toLocal` helper (BroadcastTimeHandler.cpp:140):
`localtime_r` followed by `timegm`, i.e. add the zone's offset at `utc`. -/
def toLocal (z : Zone) (utc : Int) : Int :=
  utc + z.utcToOffset utc

/-- Embedding of the `toUtc` helper (BroadcastTimeHandler.cpp:153):
`gmtime_r` followed by `timelocal` with `tm_isdst = -1`, i.e. subtract the
offset mktime's TZ lookup assigns to the local value. -/
def toUtc (z : Zone) (loc : Int) : Int :=
  loc - z.localToOffset loc

/-- A fixed-offset UTC+2 zone (no DST), as in the spec's broadcast scenario. -/
def utcPlus2 : Zone where
  utcToOffset := fun _ => 7200
  localToOffset := fun _ => 7200

/-- A zone with a single DST fall-back transition: at UTC instant 1000000 the
offset drops from +3600 (DST) to 0.  Local values in [1000000, 1003600) are
ambiguous (reachable from two UTC instants); `localToOffset` records mktime's
`tm_isdst = -1` disambiguation, here taking the pre-transition (DST)
interpretation.  The opposite choice merely moves the round-trip failure to
the other preimage. -/
def dstFallZone : Zone where
  utcToOffset := fun t => if t < 1000000 then 3600 else 0
  localToOffset := fun l => if l < 1003600 then 3600 else 0

/-!
## The NitzSetting bitfield (Inc/TimePrefsHandler.h:64-109)
-/

/-- Bit flag `NITZ_TimeEnable = 1` (TimePrefsHandler.h:66): automatic time
synchronization enabled. -/
def NITZ_TimeEnable : Nat := 1

/-- Bit flag `NITZ_TZEnable = 2` (TimePrefsHandler.h:67): automatic time-zone
synchronization enabled. -/
def NITZ_TZEnable : Nat := 2

/-- Embedding of `isManualTimeUsed()` (TimePrefsHandler.h:105):
`!(m_nitzSetting & NITZ_TimeEnable)`. -/
def isManualTimeUsedBits (nitzSetting : Nat) : Bool :=
  nitzSetting &&& NITZ_TimeEnable == 0

/-- Embedding of `isNITZTimeEnabled()` (TimePrefsHandler.h:107):
`m_nitzSetting & NITZ_TimeEnable` as a boolean. -/
def isNITZTimeEnabledBits (nitzSetting : Nat) : Bool :=
  nitzSetting &&& NITZ_TimeEnable != 0

/-- Embedding of `isNITZDisabled()` (TimePrefsHandler.h:109):
`!(m_nitzSetting & NITZ_TimeEnable) && !(m_nitzSetting & NITZ_TZEnable)`. -/
def isNITZDisabledBits (nitzSetting : Nat) : Bool :=
  (nitzSetting &&& NITZ_TimeEnable == 0) && (nitzSetting &&& NITZ_TZEnable == 0)

/-!
## Broadcast time state
-/

/-- Modelled from the spec: the `BroadcastTime` tracker state
(BroadcastTime.h/BroadcastTime.cpp are not under src/).  Spec section 3,
BroadcastTimeState: "last known (utc, local) pair plus arrival timestamp",
with section 4.5 contract `set(utc, local, observedAt) -> bool`,
`get() -> (utc, local)|none` and an availability predicate `avail()` used by
`isSystemTimeBroadcastEffective` (TimePrefsHandler.h:106). -/
structure BroadcastTime where
  avail : Bool
  utc : Int
  loc : Int
  stamp : Int
  deriving DecidableEq, Repr

/-- Modelled from the spec: `BroadcastTime::get` returns the stored pair when
one is available. -/
def BroadcastTime.get (bt : BroadcastTime) : Option (Int × Int) :=
  if bt.avail then some (bt.utc, bt.loc) else none

/-- Modelled from the spec: `BroadcastTime::set(utc, local, observedAt)`
stores the pair and returns a success flag.  The spec says only that
`setBroadcastTime` "rejects on failure to store", without saying when storing
fails, so the storage-backend outcome is an explicit `ok` input: on success
the sample is stored, on failure the previous state is kept. -/
def BroadcastTime.set (bt : BroadcastTime) (ok : Bool) (utc loc stamp : Int) :
    BroadcastTime × Bool :=
  if ok then ({ avail := true, utc := utc, loc := loc, stamp := stamp }, true)
  else (bt, false)

/-!
## Daemon state relevant to the broadcast-time handlers
-/

/-- The slice of `TimePrefsHandler` state the broadcast-time handlers read:
the NITZ setting bitfield, the broadcast sample tracker, the system time
source tag and the configured zone (the process-wide TZ the libc calls in
`toLocal`/`toUtc` consult). -/
structure TimeState where
  nitzSetting : Nat
  broadcastTime : BroadcastTime
  systemTimeSourceTag : String
  zone : Zone

/-- Embedding of `TimePrefsHandler::isManualTimeUsed` (TimePrefsHandler.h:105)
applied to the state slice. -/
def TimeState.isManualTimeUsed (st : TimeState) : Bool :=
  isManualTimeUsedBits st.nitzSetting

/-- Embedding of `isSystemTimeBroadcastEffective()` (TimePrefsHandler.h:106):
`isManualTimeUsed() || !m_broadcastTime.avail()`. -/
def TimeState.isSystemTimeBroadcastEffective (st : TimeState) : Bool :=
  st.isManualTimeUsed || !st.broadcastTime.avail

/-!
## answerEffectiveBroadcastTime (BroadcastTimeHandler.cpp:187-241)
-/

/-- Result of building the getEffectiveBroadcastTime answer: either the error
object (`errorCode`/`errorText`, function returned false) or the success
fields `adjustedUtc`, `local` and the optional `systemTimeSource` tag that is
attached exactly when the system time was used. -/
inductive EffectiveAnswer where
  | err (errorCode : Int) (errorText : String)
  | ok (adjustedUtc : Int) (loc : Int) (systemTimeSource : Option String)
  deriving DecidableEq, Repr

/-- Embedding of `answerEffectiveBroadcastTime`
(BroadcastTimeHandler.cpp:187-241).  `now` stands for `time(0)`.  The triple
is (adjustedUtc, local, systemTimeUsed); the `none` arm of the `get` match is
the code's "internal logic error" fallback (line 201), unreachable when
`isSystemTimeBroadcastEffective` is false. -/
def answerEffectiveBroadcastTime (st : TimeState) (now : Int) : EffectiveAnswer :=
  let r : Int × Int × Bool :=
    if st.isSystemTimeBroadcastEffective then
      (now, toLocal st.zone now, true)
    else
      match st.broadcastTime.get with
      | none => (now, toLocal st.zone now, true)
      | some (_, l) => (toUtc st.zone l, l, false)
  if r.2.1 = -1 then
    EffectiveAnswer.err (-1) "Failed to get localtime"
  else
    EffectiveAnswer.ok r.1 r.2.1 (if r.2.2 then some st.systemTimeSourceTag else none)

/-!
## Replies and notifications
-/

/-- Reply sent by the setBroadcastTime handler: `createJsonReply(true)`,
`createJsonReply(false, code, text)`, or the structured schema-validation
error that `LSMessageJsonParser::parse` with `EValidateAndErrorAlways` sends
on a malformed payload (modelled from the spec: JSONUtils is not under src/;
spec section 7: malformed input is "surfaced to the caller as a structured
failure"). -/
inductive Reply where
  | ok
  | fail (errorCode : Int) (errorText : String)
  | malformed
  deriving DecidableEq, Repr

/-- Outbound notifications the setBroadcastTime path can emit: a
getEffectiveBroadcastTime subscription push (`postBroadcastEffectiveTimeChange`,
carrying the recomputed effective answer) and a `deprecatedClockChange.fire`
signal (offset, tag, utcCurrent). -/
inductive Note where
  | effectivePush (answer : EffectiveAnswer)
  | deprecatedClock (offset : Int) (tag : String) (utcCurrent : Int)
  deriving DecidableEq, Repr

/-- Embedding of `TimePrefsHandler::postBroadcastEffectiveTimeChange`
(BroadcastTimeHandler.cpp:360-386): recompute the effective answer and push
it to the `effectiveBroadcastKey` subscribers; on error nothing is pushed. -/
def postBroadcastEffectiveTimeChange (st : TimeState) (now : Int) : List Note :=
  match answerEffectiveBroadcastTime st now with
  | EffectiveAnswer.err _ _ => []
  | EffectiveAnswer.ok a l s => [Note.effectivePush (EffectiveAnswer.ok a l s)]

/-!
## cbSetBroadcastTime (BroadcastTimeHandler.cpp:244-296)
-/

/-- A parsed setBroadcastTime request: the required `utc` and `local` fields
and, when the optional `timestamp` object with numeric `sec`/`nsec` was
present, that pair. -/
structure SetBroadcastRequest where
  utc : Int
  loc : Int
  timestamp : Option (Int × Int)
  deriving DecidableEq, Repr

/-- The utc value actually stored (BroadcastTimeHandler.cpp:255-268): the
request's `utc` plus the measured propagation delay when a timestamp is
present.  `delay` is modelled from the spec ("a measured propagation delay"):
`ClockHandler::evaluateDelay` is not under src/. -/
def storedUtc (req : SetBroadcastRequest) (delay : Int) : Int :=
  match req.timestamp with
  | some _ => req.utc + delay
  | none => req.utc

/-- The local value actually stored (BroadcastTimeHandler.cpp:255-268),
delay-compensated exactly like `storedUtc`. -/
def storedLoc (req : SetBroadcastRequest) (delay : Int) : Int :=
  match req.timestamp with
  | some _ => req.loc + delay
  | none => req.loc

/-- Embedding of `TimePrefsHandler::cbSetBroadcastTime`
(BroadcastTimeHandler.cpp:244-296), after JSON parsing.  `now` is `time(0)`,
`stamp` is `currentStamp()`, `delay` the measured propagation delay, and
`storeOk` the storage-backend outcome of `BroadcastTime::set`.  Returns the
new state, the bus reply, and the notifications fired, in order. -/
def cbSetBroadcastTime (st : TimeState) (now stamp delay : Int) (storeOk : Bool)
    (req : SetBroadcastRequest) : TimeState × Reply × List Note :=
  let utc := storedUtc req delay
  let loc := storedLoc req delay
  let utcOffset := utc - now
  let adjustedUtcOffset := toUtc st.zone loc - now
  match st.broadcastTime.set storeOk utc loc stamp with
  | (_, false) =>
      (st, Reply.fail (-2) "Failed to update broadcast time offsets", [])
  | (bt1, true) =>
      let st1 : TimeState := { st with broadcastTime := bt1 }
      let pushNotes := if !st1.isManualTimeUsed then postBroadcastEffectiveTimeChange st1 now else []
      (st1, Reply.ok,
        pushNotes ++
          [Note.deprecatedClock adjustedUtcOffset "broadcast-adjusted" now,
           Note.deprecatedClock utcOffset "broadcast" now])

/-!
## cbGetBroadcastTime (BroadcastTimeHandler.cpp:298-320)
-/

/-- Reply of the getBroadcastTime handler: error object, or success carrying
the literal stored `utc` and `local` (the reply also carries a service
timestamp and the civil breakdown of `local`, not modelled). -/
inductive GetBroadcastReply where
  | err (errorCode : Int) (errorText : String)
  | ok (utc : Int) (loc : Int)
  deriving DecidableEq, Repr

/-- Embedding of `TimePrefsHandler::cbGetBroadcastTime`
(BroadcastTimeHandler.cpp:298-320), after JSON parsing: a pure read of the
stored sample.  The state is returned unchanged and no notification is
emitted, mirroring the handler body, which only reads `m_broadcastTime`. -/
def cbGetBroadcastTime (st : TimeState) : TimeState × GetBroadcastReply × List Note :=
  match st.broadcastTime.get with
  | none => (st, GetBroadcastReply.err (-2) "No information available", [])
  | some (u, l) => (st, GetBroadcastReply.ok u l, [])

/-!
## JSON payloads and the setBroadcastTime schema (BroadcastTimeHandler.cpp:61-79)
-/

/-- Minimal JSON value model for request payloads.  pbnjson "integer" values
are embedded as `jnum : Int`. -/
inductive JVal where
  | jnull
  | jbool (b : Bool)
  | jnum (n : Int)
  | jstr (s : String)
  | jarr (xs : List JVal)
  | jobj (fields : List (String × JVal))

/-- First-match lookup of a key in a JSON object's field list. -/
def jlookup (fields : List (String × JVal)) (k : String) : Option JVal :=
  (fields.find? (fun p => p.1 == k)).map (fun p => p.2)

/-- Modelled from the spec: the `SCHEMA_TIMESTAMP` fragment referenced by
`schemaSetBroadcastTime` (defined in JSONUtils.h, not under src/): an object
with integer `sec` and `nsec` fields — the fields `cbSetBroadcastTime` reads
at BroadcastTimeHandler.cpp:259-263 — and no additional properties. -/
def checkTimestampSchema : JVal → Bool
  | JVal.jobj fields =>
      fields.all (fun p => p.1 == "sec" || p.1 == "nsec")
      && (match jlookup fields "sec" with
          | some (JVal.jnum _) => true
          | _ => false)
      && (match jlookup fields "nsec" with
          | some (JVal.jnum _) => true
          | _ => false)
  | _ => false

/-- Embedding of `schemaSetBroadcastTime` (BroadcastTimeHandler.cpp:61-79):
an object whose properties are `utc` (integer), `local` (integer) and the
optional `timestamp`; `utc` and `local` are required;
`additionalProperties` is false. -/
def checkSetBroadcastTimeSchema : JVal → Bool
  | JVal.jobj fields =>
      fields.all (fun p => p.1 == "utc" || p.1 == "local" || p.1 == "timestamp")
      && (match jlookup fields "utc" with
          | some (JVal.jnum _) => true
          | _ => false)
      && (match jlookup fields "local" with
          | some (JVal.jnum _) => true
          | _ => false)
      && (match jlookup fields "timestamp" with
          | some t => checkTimestampSchema t
          | none => true)
  | _ => false

/-- Parsing stage of `cbSetBroadcastTime` (BroadcastTimeHandler.cpp:250-268):
schema validation, extraction of `utc` and `local`, and the
`timestamp.isObject() && sec.isNumber() && nsec.isNumber()` guard for the
optional timestamp.  `none` means the parser already replied with the
structured schema error and the handler returned. -/
def parseSetBroadcastTime (j : JVal) : Option SetBroadcastRequest :=
  if checkSetBroadcastTimeSchema j then
    match j with
    | JVal.jobj fields =>
        match jlookup fields "utc", jlookup fields "local" with
        | some (JVal.jnum u), some (JVal.jnum l) =>
            let ts : Option (Int × Int) :=
              match jlookup fields "timestamp" with
              | some (JVal.jobj tf) =>
                  match jlookup tf "sec", jlookup tf "nsec" with
                  | some (JVal.jnum s), some (JVal.jnum ns) => some (s, ns)
                  | _, _ => none
              | _ => none
            some { utc := u, loc := l, timestamp := ts }
        | _, _ => none
    | _ => none
  else none

/-- Embedding of the full `cbSetBroadcastTime` entry point, from the raw JSON
payload: schema failure replies with the structured error and returns before
any state is touched (BroadcastTimeHandler.cpp:251); otherwise the parsed
request is processed as in `cbSetBroadcastTime`. -/
def cbSetBroadcastTimeJson (st : TimeState) (now stamp delay : Int) (storeOk : Bool)
    (payload : JVal) : TimeState × Reply × List Note :=
  match parseSetBroadcastTime payload with
  | none => (st, Reply.malformed, [])
  | some req => cbSetBroadcastTime st now stamp delay storeOk req

/-!
## cbSetPreferences (PrefsFactory.cpp:307-401)
-/

/-- A registered preference handler as consulted by `cbSetPreferences`: its
`validate(key, value, callerId)` hook.  (`valueChanged` is a side effect,
recorded as a notification.) -/
structure PrefHandler where
  validate : String → JVal → String → Bool

/-- Environment of the setPreferences loop: the handler registry
(`PrefsFactory::getPrefsHandler`) and the storage-backend outcome of
`PrefsDb::setPref` (modelled from the spec: PrefsDb is the out-of-scope
preferences-storage backend; spec section 7 allows persistence failure). -/
structure PrefsEnv where
  handlers : String → Option PrefHandler
  dbAccept : String → JVal → Bool

/-- The preferences store, keyed by preference name; lookup takes the first
(most recent) binding. -/
def dbGet (db : List (String × JVal)) (key : String) : Option JVal :=
  (db.find? (fun p => p.1 == key)).map (fun p => p.2)

/-- A successful `PrefsDb::setPref`: bind `key` to the new value (shadowing
any previous binding). -/
def dbSet (db : List (String × JVal)) (key : String) (v : JVal) : List (String × JVal) :=
  (key, v) :: db

/-- Events emitted by the setPreferences loop for a saved key: the
subscription post (`postPrefChangeValueIsCompleteString`) and the
`valueChanged` call on the key's handler. -/
inductive PrefNote where
  | post (key : String) (value : JVal)
  | valueChanged (key : String) (value : JVal)

/-- Reply of `cbSetPreferences`: `returnValue` with an `errorText` on
failure (PrefsFactory.cpp:391-395). -/
inductive PrefReply where
  | ok
  | fail (errorText : String)
  deriving DecidableEq, Repr

/-- One iteration of the `cbSetPreferences` loop (PrefsFactory.cpp:340-383)
for the pair `kv`: with a registered handler the value is stored only if
`validate` accepts it; a saved key posts its change notification and informs
the handler.  Returns the store, the `savedPref` flag and the notifications. -/
def setPrefsStep (env : PrefsEnv) (callerId : String) (db : List (String × JVal))
    (kv : String × JVal) : List (String × JVal) × Bool × List PrefNote :=
  match env.handlers kv.1 with
  | some h =>
      if h.validate kv.1 kv.2 callerId then
        if env.dbAccept kv.1 kv.2 then
          (dbSet db kv.1 kv.2, true, [PrefNote.post kv.1 kv.2, PrefNote.valueChanged kv.1 kv.2])
        else (db, false, [])
      else (db, false, [])
  | none =>
      if env.dbAccept kv.1 kv.2 then
        (dbSet db kv.1 kv.2, true, [PrefNote.post kv.1 kv.2])
      else (db, false, [])

/-- The `cbSetPreferences` loop over all submitted pairs, accumulating the
store, `savecount`, `errcount` and the emitted notifications in order. -/
def setPrefsLoop (env : PrefsEnv) (callerId : String) :
    List (String × JVal) → List (String × JVal) →
    List (String × JVal) × Nat × Nat × List PrefNote
  | db, [] => (db, 0, 0, [])
  | db, kv :: rest =>
      let r1 := setPrefsStep env callerId db kv
      let r2 := setPrefsLoop env callerId r1.1 rest
      (r2.1,
       (if r1.2.1 then 1 else 0) + r2.2.1,
       (if r1.2.1 then 0 else 1) + r2.2.2.1,
       r1.2.2 ++ r2.2.2.2)

/-- Embedding of `cbSetPreferences` (PrefsFactory.cpp:307-401), after payload
parsing: run the loop, then reply success unless some key failed
(`errcount` nonzero forces `returnValue` false with the aggregate error
text). -/
def cbSetPreferences (env : PrefsEnv) (callerId : String) (db : List (String × JVal))
    (prefs : List (String × JVal)) :
    List (String × JVal) × PrefReply × List PrefNote :=
  let r := setPrefsLoop env callerId db prefs
  (r.1,
   if r.2.2.1 ≠ 0 then PrefReply.fail "Some settings could not be saved" else PrefReply.ok,
   r.2.2.2)

/-- Whether the `cbSetPreferences` loop saves the pair `kv`: the `savedPref`
flag of its iteration.  `setPrefsStep` consults only `validate` and
`dbAccept`, so the flag does not depend on the store contents (the `[]`
argument is immaterial; see `setPrefsStep_saved_eq`). -/
def prefSaved (env : PrefsEnv) (callerId : String) (kv : String × JVal) : Bool :=
  (setPrefsStep env callerId [] kv).2.1

/-- The notifications the `cbSetPreferences` loop emits for the pair `kv`;
like the saved flag, they do not depend on the store contents (see
`setPrefsStep_notes_eq`). -/
def prefNotes (env : PrefsEnv) (callerId : String) (kv : String × JVal) : List PrefNote :=
  (setPrefsStep env callerId [] kv).2.2

/-!
## Concrete states used to instantiate the theorems
-/

/-- A stored broadcast sample: utc 4242, local 8200 (so the broadcast-implied
shift differs from the configured UTC+2 zone), arrival stamp 5. -/
def sampleBroadcast : BroadcastTime :=
  { avail := true, utc := 4242, loc := 8200, stamp := 5 }

/-- A daemon state with both NITZ sync flags set (automatic mode), a stored
broadcast sample, and the UTC+2 zone configured. -/
def autoState : TimeState :=
  { nitzSetting := 3
    broadcastTime := sampleBroadcast
    systemTimeSourceTag := "ntp"
    zone := utcPlus2 }

/-- A daemon state in manual time mode (time-sync bit clear, zone-sync bit
set) with no broadcast sample stored. -/
def manualState : TimeState :=
  { nitzSetting := 2
    broadcastTime := { avail := false, utc := 0, loc := 0, stamp := 0 }
    systemTimeSourceTag := "manual"
    zone := utcPlus2 }

/-- A preference handler accepting only the strings "HH12" and "HH24". -/
def timeFormatHandler : PrefHandler where
  validate := fun _ v _ =>
    match v with
    | JVal.jstr s => s == "HH12" || s == "HH24"
    | _ => false

/-- A preferences environment registering `timeFormatHandler` for the key
"timeFormat", with a storage backend that always accepts writes. -/
def prefsEnvDemo : PrefsEnv where
  handlers := fun key => if key == "timeFormat" then some timeFormatHandler else none
  dbAccept := fun _ _ => true

/-!
## Helper lemmas on the NitzSetting bitfield
-/

/-- Toggling bit 1 of the bitfield does not change bit 0. -/
theorem and_one_xor_two (s : Nat) : (s ^^^ 2) &&& 1 = s &&& 1 := by
  have h := Nat.testBit_xor s 2 0
  simp at h
  simp [Nat.and_one_is_mod]

/-- Setting bit 1 of the bitfield does not change bit 0. -/
theorem and_one_or_two (s : Nat) : (s ||| 2) &&& 1 = s &&& 1 := by
  have h1 := Nat.and_two_pow (s ||| 2) 0
  have h2 := Nat.and_two_pow s 0
  have h3 : (s ||| 2).testBit 0 = s.testBit 0 := by simp
  simp only [pow_zero, mul_one] at h1 h2
  rw [h3] at h1
  omega

/-!
## C1 and C2: answerEffectiveBroadcastTime
-/

/-- C1: in non-manual mode with a broadcast sample available, the effective
broadcast time is `adjustedUtc = toUtc(local)` — the broadcast local value
converted to UTC through the configured zone — never the broadcast's own
stored utc value: the answer is unchanged under any rewrite of the stored
utc field. -/
theorem effectiveBroadcastTime_uses_toUtc_of_local (st : TimeState) (now u : Int)
    (hManual : st.isManualTimeUsed = false)
    (hAvail : st.broadcastTime.avail = true)
    (hLoc : st.broadcastTime.loc ≠ -1) :
    answerEffectiveBroadcastTime st now
      = EffectiveAnswer.ok (toUtc st.zone st.broadcastTime.loc) st.broadcastTime.loc none
    ∧ answerEffectiveBroadcastTime
        { st with broadcastTime := { st.broadcastTime with utc := u } } now
      = answerEffectiveBroadcastTime st now := by
  have hM : isManualTimeUsedBits st.nitzSetting = false := hManual
  constructor
  · simp [answerEffectiveBroadcastTime, TimeState.isSystemTimeBroadcastEffective,
      TimeState.isManualTimeUsed, hM, hAvail, BroadcastTime.get, hLoc]
  · simp [answerEffectiveBroadcastTime, TimeState.isSystemTimeBroadcastEffective,
      TimeState.isManualTimeUsed, hM, hAvail, BroadcastTime.get, hLoc]

/-- Witness for C1 at the concrete automatic-mode state: the effective answer
is built from `toUtc` of the stored local value and ignores the stored utc. -/
theorem effectiveBroadcastTime_uses_toUtc_of_local_witness :
    answerEffectiveBroadcastTime autoState 5000
      = EffectiveAnswer.ok (toUtc autoState.zone autoState.broadcastTime.loc)
          autoState.broadcastTime.loc none
    ∧ answerEffectiveBroadcastTime
        { autoState with broadcastTime := { autoState.broadcastTime with utc := 12345 } } 5000
      = answerEffectiveBroadcastTime autoState 5000 :=
  effectiveBroadcastTime_uses_toUtc_of_local autoState 5000 12345 rfl rfl (by decide)

/-- C2: in manual mode, or with no broadcast sample available, the effective
broadcast time is the system clock: `adjustedUtc = now`,
`local = toLocal(now)` through the configured zone, and the answer is tagged
with the system time source. -/
theorem effectiveBroadcastTime_system_fallback (st : TimeState) (now : Int)
    (hSys : st.isManualTimeUsed = true ∨ st.broadcastTime.avail = false)
    (hLoc : toLocal st.zone now ≠ -1) :
    answerEffectiveBroadcastTime st now
      = EffectiveAnswer.ok now (toLocal st.zone now) (some st.systemTimeSourceTag) := by
  have hEff : st.isSystemTimeBroadcastEffective = true := by
    rcases hSys with h | h <;> simp [TimeState.isSystemTimeBroadcastEffective, h]
  simp [answerEffectiveBroadcastTime, hEff, hLoc]

/-- Witness for C2 at the concrete manual-mode state with no sample. -/
theorem effectiveBroadcastTime_system_fallback_witness :
    answerEffectiveBroadcastTime manualState 777
      = EffectiveAnswer.ok 777 (toLocal manualState.zone 777)
          (some manualState.systemTimeSourceTag) :=
  effectiveBroadcastTime_system_fallback manualState 777 (Or.inl rfl) (by decide)

/-!
## C3, C4 and C5: cbSetBroadcastTime
-/

/-- C3: a setBroadcastTime request with an origin timestamp has the measured
propagation delay added to both utc and local before the sample is stored; a
request without a timestamp is stored unmodified. -/
theorem setBroadcastTime_delay_compensation (st : TimeState) (now stamp delay : Int)
    (req : SetBroadcastRequest) :
    (cbSetBroadcastTime st now stamp delay true req).1.broadcastTime.avail = true
    ∧ (req.timestamp.isSome = true →
        (cbSetBroadcastTime st now stamp delay true req).1.broadcastTime.utc = req.utc + delay
        ∧ (cbSetBroadcastTime st now stamp delay true req).1.broadcastTime.loc = req.loc + delay)
    ∧ (req.timestamp = none →
        (cbSetBroadcastTime st now stamp delay true req).1.broadcastTime.utc = req.utc
        ∧ (cbSetBroadcastTime st now stamp delay true req).1.broadcastTime.loc = req.loc) := by
  rcases req with ⟨u, l, ts⟩
  cases ts with
  | none => simp [cbSetBroadcastTime, BroadcastTime.set, storedUtc, storedLoc]
  | some p => simp [cbSetBroadcastTime, BroadcastTime.set, storedUtc, storedLoc]

/-- Witness for C3, the spec scenario with T = 1000 and measured delay 1:
the stored sample is (T+1, T+3601); without a timestamp it is (T, T+3600). -/
theorem setBroadcastTime_delay_compensation_witness :
    (cbSetBroadcastTime autoState 5000 7 1 true ⟨1000, 4600, some (42, 0)⟩).1.broadcastTime.avail = true
    ∧ ((cbSetBroadcastTime autoState 5000 7 1 true ⟨1000, 4600, some (42, 0)⟩).1.broadcastTime.utc
        = 1000 + 1
      ∧ (cbSetBroadcastTime autoState 5000 7 1 true ⟨1000, 4600, some (42, 0)⟩).1.broadcastTime.loc
         = 4600 + 1)
    ∧ ((cbSetBroadcastTime autoState 5000 7 1 true ⟨1000, 4600, none⟩).1.broadcastTime.utc = 1000
      ∧ (cbSetBroadcastTime autoState 5000 7 1 true ⟨1000, 4600, none⟩).1.broadcastTime.loc = 4600) := by
  have h1 := setBroadcastTime_delay_compensation autoState 5000 7 1 ⟨1000, 4600, some (42, 0)⟩
  have h2 := setBroadcastTime_delay_compensation autoState 5000 7 1 ⟨1000, 4600, none⟩
  exact ⟨h1.1, h1.2.1 rfl, h2.2.2 rfl⟩

/-- C4: when the storage step of setBroadcastTime fails, the handler replies
with the failure response (code -2), the state is unchanged, and no
notification of any kind is emitted. -/
theorem setBroadcastTime_store_failure (st : TimeState) (now stamp delay : Int)
    (req : SetBroadcastRequest) :
    cbSetBroadcastTime st now stamp delay false req
      = (st, Reply.fail (-2) "Failed to update broadcast time offsets", []) := by
  simp [cbSetBroadcastTime, BroadcastTime.set]

/-- Counterexample to C5: in manual time mode, a setBroadcastTime request
that successfully stores its sample (the state afterwards holds the sample
and the reply is success) emits only the two deprecated clock-change signals
and no getEffectiveBroadcastTime subscription push. -/
theorem setBroadcastTime_push_counterexample :
    (cbSetBroadcastTime manualState 5000 7 0 true ⟨1000, 4600, none⟩).1.broadcastTime
      = { avail := true, utc := 1000, loc := 4600, stamp := 7 }
    ∧ (cbSetBroadcastTime manualState 5000 7 0 true ⟨1000, 4600, none⟩).2.1 = Reply.ok
    ∧ (cbSetBroadcastTime manualState 5000 7 0 true ⟨1000, 4600, none⟩).2.2
      = [Note.deprecatedClock (-7600) "broadcast-adjusted" 5000,
         Note.deprecatedClock (-4000) "broadcast" 5000] := by
  decide

/-- C5 as amended: after a setBroadcastTime request successfully stores a
sample, if manual time mode is off (and the local conversion does not fail),
the effective broadcast time is recomputed from the newly stored sample and a
push carrying it is delivered to the getEffectiveBroadcastTime subscribers;
in manual mode no push is emitted. -/
theorem setBroadcastTime_push_on_success (st : TimeState) (now stamp delay : Int)
    (req : SetBroadcastRequest)
    (hMan : st.isManualTimeUsed = false)
    (hLoc : storedLoc req delay ≠ -1) :
    (cbSetBroadcastTime st now stamp delay true req).2.2
      = Note.effectivePush
          (EffectiveAnswer.ok (toUtc st.zone (storedLoc req delay)) (storedLoc req delay) none)
        :: [Note.deprecatedClock (toUtc st.zone (storedLoc req delay) - now) "broadcast-adjusted" now,
            Note.deprecatedClock (storedUtc req delay - now) "broadcast" now] := by
  have hM : isManualTimeUsedBits st.nitzSetting = false := hMan
  simp [cbSetBroadcastTime, BroadcastTime.set, TimeState.isManualTimeUsed, hM,
    postBroadcastEffectiveTimeChange, answerEffectiveBroadcastTime,
    TimeState.isSystemTimeBroadcastEffective, BroadcastTime.get, hLoc]

/-- Witness for the amended C5 at the concrete automatic-mode state: the push
carrying the recomputed effective time precedes the deprecated signals. -/
theorem setBroadcastTime_push_on_success_witness :
    (cbSetBroadcastTime autoState 5000 7 0 true ⟨1000, 4600, none⟩).2.2
      = Note.effectivePush
          (EffectiveAnswer.ok (toUtc autoState.zone (storedLoc ⟨1000, 4600, none⟩ 0))
            (storedLoc ⟨1000, 4600, none⟩ 0) none)
        :: [Note.deprecatedClock (toUtc autoState.zone (storedLoc ⟨1000, 4600, none⟩ 0) - 5000)
              "broadcast-adjusted" 5000,
            Note.deprecatedClock (storedUtc ⟨1000, 4600, none⟩ 0 - 5000) "broadcast" 5000] :=
  setBroadcastTime_push_on_success autoState 5000 7 0 ⟨1000, 4600, none⟩ rfl (by decide)

/-!
## C6: the NitzSetting bitfield
-/

/-- C6: manual mode holds exactly when the time-sync flag is clear (it is the
negation of `isNITZTimeEnabled`), toggling or setting the zone-sync flag
never changes `isManualTimeUsed`, `isNITZDisabled` holds exactly when both
flags are clear, and in particular a bitfield with only the zone-sync flag
set is in manual time mode without being NITZ-disabled. -/
theorem nitzSetting_manual_zone_independence (s : Nat) :
    isManualTimeUsedBits s = !isNITZTimeEnabledBits s
    ∧ isManualTimeUsedBits (s ^^^ NITZ_TZEnable) = isManualTimeUsedBits s
    ∧ isManualTimeUsedBits (s ||| NITZ_TZEnable) = isManualTimeUsedBits s
    ∧ (isNITZDisabledBits s = true
        ↔ (s &&& NITZ_TimeEnable = 0 ∧ s &&& NITZ_TZEnable = 0))
    ∧ (isManualTimeUsedBits NITZ_TZEnable = true
        ∧ isNITZDisabledBits NITZ_TZEnable = false) := by
  refine ⟨?_, ?_, ?_, ?_, by decide⟩
  · simp [isManualTimeUsedBits, isNITZTimeEnabledBits, bne]
  · simp only [isManualTimeUsedBits, NITZ_TimeEnable, NITZ_TZEnable, and_one_xor_two]
  · simp only [isManualTimeUsedBits, NITZ_TimeEnable, NITZ_TZEnable, and_one_or_two]
  · simp [isNITZDisabledBits, NITZ_TimeEnable, NITZ_TZEnable]

/-!
## C7: schema rejection of setBroadcastTime payloads
-/

/-- C7: a setBroadcastTime payload that fails schema validation is answered
with the structured schema failure, and the handler returns before touching
any state: the state is unchanged and no notification is emitted. -/
theorem setBroadcastTime_schema_rejection (st : TimeState) (now stamp delay : Int)
    (storeOk : Bool) (payload : JVal)
    (hBad : checkSetBroadcastTimeSchema payload = false) :
    cbSetBroadcastTimeJson st now stamp delay storeOk payload
      = (st, Reply.malformed, []) := by
  have hParse : parseSetBroadcastTime payload = none := by
    simp [parseSetBroadcastTime, hBad]
  simp [cbSetBroadcastTimeJson, hParse]

/-- Witness for C7 at a concrete payload missing the required `local` field. -/
theorem setBroadcastTime_schema_rejection_witness :
    cbSetBroadcastTimeJson autoState 1 2 3 true (JVal.jobj [("utc", JVal.jnum 5)])
      = (autoState, Reply.malformed, []) :=
  setBroadcastTime_schema_rejection autoState 1 2 3 true
    (JVal.jobj [("utc", JVal.jnum 5)]) rfl

/-!
## C8: the setPreferences validation gate
-/

/-- The saved flag of a loop iteration does not depend on the store the
iteration starts from. -/
theorem setPrefsStep_saved_eq (env : PrefsEnv) (callerId : String)
    (db : List (String × JVal)) (kv : String × JVal) :
    (setPrefsStep env callerId db kv).2.1 = prefSaved env callerId kv := by
  rcases kv with ⟨k0, v0⟩
  rcases henv : env.handlers k0 with _ | hd
  · by_cases hacc : env.dbAccept k0 v0 = true <;>
      simp [setPrefsStep, prefSaved, henv, hacc]
  · by_cases hval : hd.validate k0 v0 callerId = true <;>
      by_cases hacc : env.dbAccept k0 v0 = true <;>
      simp [setPrefsStep, prefSaved, henv, hval, hacc]

/-- The notifications of a loop iteration do not depend on the store the
iteration starts from. -/
theorem setPrefsStep_notes_eq (env : PrefsEnv) (callerId : String)
    (db : List (String × JVal)) (kv : String × JVal) :
    (setPrefsStep env callerId db kv).2.2 = prefNotes env callerId kv := by
  rcases kv with ⟨k0, v0⟩
  rcases henv : env.handlers k0 with _ | hd
  · by_cases hacc : env.dbAccept k0 v0 = true <;>
      simp [setPrefsStep, prefNotes, henv, hacc]
  · by_cases hval : hd.validate k0 v0 callerId = true <;>
      by_cases hacc : env.dbAccept k0 v0 = true <;>
      simp [setPrefsStep, prefNotes, henv, hval, hacc]

/-- A loop iteration either saves its pair into the store or leaves the store
untouched. -/
theorem setPrefsStep_db_eq (env : PrefsEnv) (callerId : String)
    (db : List (String × JVal)) (kv : String × JVal) :
    (setPrefsStep env callerId db kv).1
      = if prefSaved env callerId kv then dbSet db kv.1 kv.2 else db := by
  rcases kv with ⟨k0, v0⟩
  rcases henv : env.handlers k0 with _ | hd
  · by_cases hacc : env.dbAccept k0 v0 = true <;>
      simp [setPrefsStep, prefSaved, henv, hacc]
  · by_cases hval : hd.validate k0 v0 callerId = true <;>
      by_cases hacc : env.dbAccept k0 v0 = true <;>
      simp [setPrefsStep, prefSaved, henv, hval, hacc]

/-- For a key with a registered handler, the pair is saved exactly when the
handler validates the value and the storage backend accepts the write. -/
theorem prefSaved_validate (env : PrefsEnv) (callerId k : String) (v : JVal)
    (h : PrefHandler) (hh : env.handlers k = some h) :
    prefSaved env callerId (k, v) = (h.validate k v callerId && env.dbAccept k v) := by
  by_cases hval : h.validate k v callerId = true <;>
    by_cases hacc : env.dbAccept k v = true <;>
    simp [prefSaved, setPrefsStep, hh, hval, hacc]

/-- For a key with a registered handler, the iteration's notifications are
exactly the post and the valueChanged events when the pair is saved, and
nothing otherwise. -/
theorem prefNotes_handler (env : PrefsEnv) (callerId k : String) (v : JVal)
    (h : PrefHandler) (hh : env.handlers k = some h) :
    prefNotes env callerId (k, v)
      = if prefSaved env callerId (k, v)
        then [PrefNote.post k v, PrefNote.valueChanged k v]
        else [] := by
  by_cases hval : h.validate k v callerId = true <;>
    by_cases hacc : env.dbAccept k v = true <;>
    simp [prefNotes, prefSaved, setPrefsStep, hh, hval, hacc]

/-- Every notification an iteration emits is about its own pair, and only a
saved pair emits any. -/
theorem prefNotes_mem (env : PrefsEnv) (callerId : String) (e : String × JVal)
    (n : PrefNote) (hm : n ∈ prefNotes env callerId e) :
    prefSaved env callerId e = true
    ∧ (n = PrefNote.post e.1 e.2 ∨ n = PrefNote.valueChanged e.1 e.2) := by
  rcases e with ⟨ek, ev⟩
  rcases henv : env.handlers ek with _ | hd
  · by_cases hacc : env.dbAccept ek ev = true <;>
      simp [prefNotes, prefSaved, setPrefsStep, henv, hacc] at hm ⊢ <;> simp [hm]
  · by_cases hval : hd.validate ek ev callerId = true <;>
      by_cases hacc : env.dbAccept ek ev = true <;>
      simp [prefNotes, prefSaved, setPrefsStep, henv, hval, hacc] at hm ⊢ <;> simp [hm]

/-- A notification appears in the loop's output exactly when some submitted
pair emits it. -/
theorem setPrefsLoop_mem_notes (env : PrefsEnv) (callerId : String)
    (prefs : List (String × JVal)) :
    ∀ (db : List (String × JVal)) (n : PrefNote),
      n ∈ (setPrefsLoop env callerId db prefs).2.2.2
        ↔ ∃ kv, kv ∈ prefs ∧ n ∈ prefNotes env callerId kv := by
  induction prefs with
  | nil => intro db n; simp [setPrefsLoop]
  | cons e rest ih =>
      intro db n
      simp only [setPrefsLoop, List.mem_append, setPrefsStep_notes_eq, List.mem_cons]
      rw [ih]
      constructor
      · rintro (hn | ⟨kv, hkv, hn⟩)
        · exact ⟨e, Or.inl rfl, hn⟩
        · exact ⟨kv, Or.inr hkv, hn⟩
      · rintro ⟨kv, hkv | hkv, hn⟩
        · exact Or.inl (hkv ▸ hn)
        · exact Or.inr ⟨kv, hkv, hn⟩

/-- If any submitted pair fails to save, the loop's error count is nonzero. -/
theorem setPrefsLoop_err_pos (env : PrefsEnv) (callerId : String)
    (prefs : List (String × JVal)) :
    ∀ (db : List (String × JVal)) (kv : String × JVal),
      kv ∈ prefs → prefSaved env callerId kv = false →
      (setPrefsLoop env callerId db prefs).2.2.1 ≠ 0 := by
  induction prefs with
  | nil => intro db kv hmem; cases hmem
  | cons e rest ih =>
      intro db kv hmem hns
      simp only [setPrefsLoop, setPrefsStep_saved_eq]
      cases hmem with
      | head =>
          rw [hns]
          simp
      | tail _ hmem2 =>
          have hrest := ih (setPrefsStep env callerId db e).1 kv hmem2 hns
          cases hsv : prefSaved env callerId e <;> simp [hsv] <;> omega

/-- Lookups at a different key see through a store update. -/
theorem dbGet_dbSet_ne (db : List (String × JVal)) (key : String) (v : JVal)
    (k : String) (hne : key ≠ k) :
    dbGet (dbSet db key v) k = dbGet db k := by
  have hb : ((key, v).1 == k) = false := by simp [hne]
  simp [dbGet, dbSet, List.find?_cons, hb]

/-- If no submitted pair with key `k` is saved, the loop leaves the stored
value of `k` unchanged. -/
theorem setPrefsLoop_db_preserved (env : PrefsEnv) (callerId k : String)
    (prefs : List (String × JVal)) :
    ∀ (db : List (String × JVal)),
      (∀ w, (k, w) ∈ prefs → prefSaved env callerId (k, w) = false) →
      dbGet (setPrefsLoop env callerId db prefs).1 k = dbGet db k := by
  induction prefs with
  | nil => intro db hall; simp [setPrefsLoop]
  | cons e rest ih =>
      intro db hall
      simp only [setPrefsLoop]
      have hstep := setPrefsStep_db_eq env callerId db e
      cases hsv : prefSaved env callerId e with
      | false =>
          have hdb : (setPrefsStep env callerId db e).1 = db := by
            rw [hstep, hsv]; simp
          rw [hdb]
          exact ih db (fun w hw => hall w (List.Mem.tail _ hw))
      | true =>
          have hek : e.1 ≠ k := by
            intro hk
            have he : e = (k, e.2) := by rw [← hk]
            have := hall e.2 (he ▸ List.Mem.head rest)
            rw [← he] at this
            rw [hsv] at this
            cases this
          have hdb : (setPrefsStep env callerId db e).1 = dbSet db e.1 e.2 := by
            rw [hstep, hsv]; simp
          rw [hdb]
          rw [ih (dbSet db e.1 e.2) (fun w hw => hall w (List.Mem.tail _ hw))]
          exact dbGet_dbSet_ne db e.1 e.2 k hek

/-- C8: for every key submitted in a setPreferences batch that has a
registered handler — the value is persisted only if the handler's validate
accepts it (a saved pair implies validation passed); a pair failing
validation emits neither its post nor its valueChanged notification and
forces the overall response to failure, whatever the other keys do; every
successfully persisted pair has both its post and its valueChanged
notification in the output; and if no submission of the key is saved, the
stored value of that key is unchanged. -/
theorem setPreferences_validate_gate (env : PrefsEnv) (callerId : String)
    (db : List (String × JVal)) (prefs : List (String × JVal))
    (k : String) (v : JVal) (h : PrefHandler)
    (hh : env.handlers k = some h) (hmem : (k, v) ∈ prefs) :
    (prefSaved env callerId (k, v) = true → h.validate k v callerId = true)
    ∧ (h.validate k v callerId = false →
        PrefNote.post k v ∉ (cbSetPreferences env callerId db prefs).2.2
        ∧ PrefNote.valueChanged k v ∉ (cbSetPreferences env callerId db prefs).2.2
        ∧ (cbSetPreferences env callerId db prefs).2.1
            = PrefReply.fail "Some settings could not be saved")
    ∧ (prefSaved env callerId (k, v) = true →
        PrefNote.post k v ∈ (cbSetPreferences env callerId db prefs).2.2
        ∧ PrefNote.valueChanged k v ∈ (cbSetPreferences env callerId db prefs).2.2)
    ∧ ((∀ w, (k, w) ∈ prefs → prefSaved env callerId (k, w) = false) →
        dbGet (cbSetPreferences env callerId db prefs).1 k = dbGet db k) := by
  have hval_of_saved : prefSaved env callerId (k, v) = true → h.validate k v callerId = true := by
    intro hs
    rw [prefSaved_validate env callerId k v h hh] at hs
    simp at hs
    exact hs.1
  refine ⟨hval_of_saved, ?_, ?_, ?_⟩
  · intro hv
    have hns : prefSaved env callerId (k, v) = false := by
      rw [prefSaved_validate env callerId k v h hh, hv]
      rfl
    have hnotin : ∀ n : PrefNote,
        (n = PrefNote.post k v ∨ n = PrefNote.valueChanged k v) →
        n ∉ (setPrefsLoop env callerId db prefs).2.2.2 := by
      intro n hn hin
      obtain ⟨kv, hkvmem, hkvnote⟩ := (setPrefsLoop_mem_notes env callerId prefs db n).mp hin
      obtain ⟨hsaved, hform⟩ := prefNotes_mem env callerId kv n hkvnote
      have hkveq : kv = (k, v) := by
        rcases kv with ⟨kk, kw⟩
        rcases hn with hn | hn <;> rcases hform with hform | hform <;>
          rw [hn] at hform <;> simp at hform <;> simp [hform]
      rw [hkveq, hns] at hsaved
      cases hsaved
    refine ⟨hnotin _ (Or.inl rfl), hnotin _ (Or.inr rfl), ?_⟩
    have herr := setPrefsLoop_err_pos env callerId prefs db (k, v) hmem hns
    simp [cbSetPreferences, herr]
  · intro hs
    have hnotes := prefNotes_handler env callerId k v h hh
    rw [hs] at hnotes
    simp only [if_true] at hnotes
    constructor
    · exact (setPrefsLoop_mem_notes env callerId prefs db _).mpr
        ⟨(k, v), hmem, by rw [hnotes]; exact List.Mem.head _⟩
    · exact (setPrefsLoop_mem_notes env callerId prefs db _).mpr
        ⟨(k, v), hmem, by rw [hnotes]; exact List.Mem.tail _ (List.Mem.head _)⟩
  · intro hall
    exact setPrefsLoop_db_preserved env callerId k prefs db hall

/-- Witness for C8 at a concrete two-key batch: the rejected value emits no
notification and fails the whole response even though the other submission
of the same key succeeds and emits both its notifications; in a batch where
every submission of the key fails validation, the stored value is unchanged. -/
theorem setPreferences_validate_gate_witness :
    (PrefNote.post "timeFormat" (JVal.jnum 7)
        ∉ (cbSetPreferences prefsEnvDemo "caller" []
            [("timeFormat", JVal.jstr "HH24"), ("timeFormat", JVal.jnum 7)]).2.2
      ∧ PrefNote.valueChanged "timeFormat" (JVal.jnum 7)
        ∉ (cbSetPreferences prefsEnvDemo "caller" []
            [("timeFormat", JVal.jstr "HH24"), ("timeFormat", JVal.jnum 7)]).2.2
      ∧ (cbSetPreferences prefsEnvDemo "caller" []
            [("timeFormat", JVal.jstr "HH24"), ("timeFormat", JVal.jnum 7)]).2.1
          = PrefReply.fail "Some settings could not be saved")
    ∧ (PrefNote.post "timeFormat" (JVal.jstr "HH24")
        ∈ (cbSetPreferences prefsEnvDemo "caller" []
            [("timeFormat", JVal.jstr "HH24"), ("timeFormat", JVal.jnum 7)]).2.2
      ∧ PrefNote.valueChanged "timeFormat" (JVal.jstr "HH24")
        ∈ (cbSetPreferences prefsEnvDemo "caller" []
            [("timeFormat", JVal.jstr "HH24"), ("timeFormat", JVal.jnum 7)]).2.2)
    ∧ dbGet (cbSetPreferences prefsEnvDemo "caller" []
            [("timeFormat", JVal.jnum 7), ("timeFormat", JVal.jbool true)]).1 "timeFormat"
        = dbGet [] "timeFormat" := by
  have hA := setPreferences_validate_gate prefsEnvDemo "caller" []
      [("timeFormat", JVal.jstr "HH24"), ("timeFormat", JVal.jnum 7)]
      "timeFormat" (JVal.jnum 7) timeFormatHandler rfl
      (List.Mem.tail _ (List.Mem.head _))
  have hB := setPreferences_validate_gate prefsEnvDemo "caller" []
      [("timeFormat", JVal.jstr "HH24"), ("timeFormat", JVal.jnum 7)]
      "timeFormat" (JVal.jstr "HH24") timeFormatHandler rfl (List.Mem.head _)
  have hC := setPreferences_validate_gate prefsEnvDemo "caller" []
      [("timeFormat", JVal.jnum 7), ("timeFormat", JVal.jbool true)]
      "timeFormat" (JVal.jnum 7) timeFormatHandler rfl (List.Mem.head _)
  refine ⟨hA.2.1 rfl, hB.2.2.1 rfl, hC.2.2.2 ?_⟩
  intro w hw
  cases hw with
  | head => rfl
  | tail _ hw2 =>
      cases hw2 with
      | head => rfl
      | tail _ hw3 => cases hw3

/-!
## C9: the toLocal / toUtc round trip
-/

/-- Counterexample to C9: under a zone with a DST fall-back transition the
round trip fails.  `toLocal` collapses the two UTC instants 999999 and
1003599 to the same local value (the fall-back makes that local time
ambiguous), both conversions succeed (no -1), yet
`toUtc (toLocal 1003599) = 999999 ≠ 1003599`. -/
theorem toUtc_toLocal_roundtrip_counterexample :
    toLocal dstFallZone 999999 = toLocal dstFallZone 1003599
    ∧ toLocal dstFallZone 1003599 ≠ -1
    ∧ toUtc dstFallZone (toLocal dstFallZone 1003599) ≠ -1
    ∧ toUtc dstFallZone (toLocal dstFallZone 1003599) ≠ 1003599 := by
  decide

/-- C9 as amended: `toUtc (toLocal t) = t` holds exactly at those `t` where
mktime's zone-rule lookup assigns the converted local value the same UTC
offset the zone assigns to `t` itself — in particular for every `t` under a
fixed-offset zone; at a DST fall-back the local value is ambiguous and the
round trip fails for one of its two UTC preimages. -/
theorem toUtc_toLocal_roundtrip (z : Zone) (t : Int)
    (h : z.localToOffset (toLocal z t) = z.utcToOffset t) :
    toUtc z (toLocal z t) = t := by
  simp only [toUtc, toLocal] at h ⊢
  omega

/-- Witness for the amended C9 at the fixed-offset UTC+2 zone. -/
theorem toUtc_toLocal_roundtrip_witness :
    toUtc utcPlus2 (toLocal utcPlus2 12345) = 12345 :=
  toUtc_toLocal_roundtrip utcPlus2 12345 rfl

/-!
## C10: cbGetBroadcastTime
-/

/-- C10: with no broadcast sample stored, getBroadcastTime replies failure
with error text "No information available", changes no state, and emits no
notification; with a sample stored it replies success with the literal stored
utc and local values, unconverted. -/
theorem getBroadcastTime_literal_or_error (st : TimeState) :
    (st.broadcastTime.avail = false →
      cbGetBroadcastTime st
        = (st, GetBroadcastReply.err (-2) "No information available", []))
    ∧ (st.broadcastTime.avail = true →
      cbGetBroadcastTime st
        = (st, GetBroadcastReply.ok st.broadcastTime.utc st.broadcastTime.loc, [])) := by
  constructor <;> intro h <;> simp [cbGetBroadcastTime, BroadcastTime.get, h]

/-- Witness for C10: the no-sample state replies the error unchanged; the
state with a sample replies the stored pair as-is. -/
theorem getBroadcastTime_literal_or_error_witness :
    cbGetBroadcastTime manualState
      = (manualState, GetBroadcastReply.err (-2) "No information available", [])
    ∧ cbGetBroadcastTime autoState
      = (autoState,
         GetBroadcastReply.ok autoState.broadcastTime.utc autoState.broadcastTime.loc, []) :=
  ⟨(getBroadcastTime_literal_or_error manualState).1 rfl,
   (getBroadcastTime_literal_or_error autoState).2 rfl⟩

end LunaSysService
